import Mathlib

/-!
# Verification of the StochOPy Viewer GUI logic

Shallow embedding of `stochopy/gui/gui.py` (class `StochOGUI`).  The GUI's
Tk variables and object attributes become fields of an explicit state
record; each event handler becomes a pure state-transition function that
additionally returns the list of observable actions it performs (dialogs
shown, timer start/stop, solver invocations, files written).  Python
exceptions that escape a handler are modelled by `Option` (`none` =
uncaught exception).  Floating-point values that only flow through the
code unchanged are modelled by `Rat`; the two genuinely float-semantic
operations (`float(...)` parsing and `np.log10`) are taken as parameters,
so theorems about them hold for every interpretation, including the real
IEEE one.
-/

namespace StochOPy

/-- A numpy array as it appears in this GUI: 1-D (Monte Carlo fitness),
2-D (models of a Monte Carlo run / evolutionary fitness, stored as the
list of its columns since the code only accesses columns `a[:,i]`), or
3-D (evolutionary models `a[j,:,i]`, stored as the list of its 2-D
slices `a[j]`). -/
inductive NPArray where
  | d1 (vals : List Rat)
  | d2 (cols : List (List Rat))
  | d3 (slices : List (List (List Rat)))
deriving DecidableEq, Repr

/-- The external solver object (`MonteCarlo` or `Evolutionary`) after its
`sample`/`optimize` method has run: the sampler/solver tag it stored in
`self._solver`, the trajectory array `self.models` and the fitness array
`self.energy`. -/
structure Solver where
  solverTag : String
  models : NPArray
  energy : NPArray
deriving DecidableEq, Repr

/-- The mutable state of a `StochOGUI` instance: the class flags
`first_run`/`anim_running`, whether `self.anim` has been created
(`has_anim`), every Tk variable defined in `define_variables`, the
benchmark-function name held by `self.bf` (its plotting internals are
irrelevant here), the solver object `self.solver`, the current plot data,
and an abstract state of numpy's global random generator. -/
structure GUIState where
  first_run : Bool
  anim_running : Bool
  has_anim : Bool
  solver_name : String
  function : String
  popsize : Int
  max_iter : Int
  interval : Int
  stepsize : Rat
  log_stepsize : Rat
  n_leap : Int
  w : Rat
  c1 : Rat
  c2 : Rat
  gamma : Rat
  CR : Rat
  F : Rat
  sigma : Rat
  mu_perc : Rat
  seed : Int
  fix_seed : Bool
  clip : Bool
  bf : Option String
  solver : Option Solver
  rng : Int
deriving DecidableEq, Repr

/-- Class attribute `MAX_SEED = 999999`. -/
def MAX_SEED : Int := 999999

/-- Class attribute `EAOPT = ("CPSO", "PSO", "DE", "CMAES")`. -/
def EAOPT : List String := ["CPSO", "PSO", "DE", "CMAES"]

/-- Class attribute `MCOPT = ("Hastings", "Hamiltonian")`. -/
def MCOPT : List String := ["Hastings", "Hamiltonian"]

/-- Class attribute `MIN_POPSIZE = {"cpso": 2, "pso": 2, "de": 4, "cmaes": 4}`. -/
def MIN_POPSIZE : List (String × Int) :=
  [("cpso", 2), ("pso", 2), ("de", 4), ("cmaes", 4)]

/-- The lower-case solver names of the Monte Carlo branch of `run`. -/
def MC_LIST : List String := ["hastings", "hamiltonian"]

/-- The lower-case solver names of the evolutionary branch of `run`. -/
def EA_LIST : List String := ["cpso", "pso", "de", "cmaes"]

/-- The observable actions a handler can perform. -/
inductive Action where
  | showError (title message : String)
  | seedRNG (s : Int)
  | mkBenchmark (funcname : String) (n_dim : Int)
  | sampleCall (funcname : String) (max_iter : Int) (clip : Bool)
      (sampler : String) (stepsize : Rat) (n_leap : Int) (rng : Int)
  | optimizeCall (funcname : String) (popsize max_iter : Int) (clip : Bool)
      (solver : String) (w c1 c2 gamma CR F sigma mu_perc : Rat) (rng : Int)
  | timerStop
  | timerStart
  | saveDialog (title : String)
  | writeFile (filename : String) (data : NPArray)
deriving DecidableEq, Repr

/-- Does this action construct and invoke a solver? -/
def isSolverCall : Action → Bool
  | Action.sampleCall _ _ _ _ _ _ _ => true
  | Action.optimizeCall _ _ _ _ _ _ _ _ _ _ _ _ _ _ => true
  | _ => false

/-- Python `str.lower()`: `Char.toLower` applied to every character
(a structurally recursive equivalent of `String.toLower`). -/
def pyLower (s : String) : String := String.mk (s.data.map Char.toLower)

/-- Python `str.upper()`: `Char.toUpper` applied to every character
(a structurally recursive equivalent of `String.toUpper`). -/
def pyUpper (s : String) : String := String.mk (s.data.map Char.toUpper)

/-- `StochOGUI.check_variables`: lower-cases the selected solver name;
when its upper-case form is in `EAOPT` and the population size is below
`MIN_POPSIZE[solver_name]`, shows a modal error dialog and returns
`False`, otherwise returns `True`.  `none` models the `KeyError` Python
would raise if the lower-cased name were missing from `MIN_POPSIZE`
(unreachable for the six menu entries). -/
def check_variables (solver_name : String) (popsize : Int) :
    Option (Bool × List Action) :=
  let lower := pyLower solver_name
  if EAOPT.contains (pyUpper lower) then
    match MIN_POPSIZE.lookup lower with
    | none => none
    | some m =>
      if popsize < m then
        some (false,
          [Action.showError "Error"
            ("For " ++ pyUpper lower ++
              ", population size should be greater than " ++
              toString (m - 1) ++ ".")])
      else some (true, [])
  else some (true, [])

/-- `np.random.seed(s)`: the resulting generator state is a function of
the seed alone; we represent that state by the seed value itself. -/
def np_seed (s : Int) : Int := s

/-- Python `str.split()` with no argument: splits on runs of whitespace
and drops empty pieces (structurally recursive; `cur` collects the
current word reversed). -/
def pySplitAux : List Char → List Char → List String
  | [], cur => if cur.isEmpty then [] else [String.mk cur.reverse]
  | c :: rest, cur =>
    if c.isWhitespace then
      if cur.isEmpty then pySplitAux rest []
      else String.mk cur.reverse :: pySplitAux rest []
    else pySplitAux rest (c :: cur)

/-- Python `str.split()` with no argument. -/
def pySplit (s : String) : List String := pySplitAux s.data []

/-- Python `"_".join(...)`. -/
def joinUnderscore : List String → String
  | [] => ""
  | [t] => t
  | t :: rest => t ++ "_" ++ joinUnderscore rest

/-- `"_".join(self.function.get().split()).lower()`. -/
def funcId (function : String) : String :=
  pyLower (joinUnderscore (pySplit function))

/-- The external collaborators of `run`, treated as black boxes with their
documented contracts: `np.random.randint(MAX_SEED)` draws from the global
generator a value in `[0, MAX_SEED)`; `MonteCarlo(...).sample(...)` and
`Evolutionary(...).optimize(...)` consume the generator state and produce
a solver object whose `_solver` attribute is the sampler/solver name they
were given. -/
structure Env where
  randint : Int → Int × Int
  randint_range : ∀ s, 0 ≤ (randint s).1 ∧ (randint s).1 < MAX_SEED
  runSample : String → Int → Bool → String → Rat → Int → Int → Solver × Int
  runOptimize : String → Int → Int → Bool → String →
      Rat → Rat → Rat → Rat → Rat → Rat → Rat → Rat → Int → Solver × Int
  sample_tag : ∀ f mi c s ss nl r,
      (runSample f mi c s ss nl r).1.solverTag = s
  optimize_tag : ∀ f p mi c s w c1 c2 g cr fw sg mp r,
      (runOptimize f p mi c s w c1 c2 g cr fw sg mp r).1.solverTag = s

/-- `StochOGUI._validate_stepsize`: tries
`self.log_stepsize.set(np.log10(float(val)))`, swallows the `ValueError`
a non-numeric string makes `float` raise, and returns `True`.  `parse`
models Python `float(...)` (`none` = `ValueError`); `log10` models
`np.log10`, which is total on floats (it yields `nan`/`-inf` on
non-positive input instead of raising). -/
def _validate_stepsize (parse : String → Option Rat) (log10 : Rat → Rat)
    (st : GUIState) (val : String) : GUIState × Bool :=
  match parse val with
  | some x => ({ st with log_stepsize := log10 x }, true)
  | none => (st, true)

/-- `StochOGUI.animate`: stops the previous animation timer if one is
running, clears the figure, branches on `self.solver._solver` to pick the
frame-update function and the fitness curve, redraws both axes (the
plotting calls mutate only figure objects, abstracted away here), sets
`anim_running` and creates `self.anim`.  `none` models the
`AttributeError` on `self.solver`/`self.bf` before any run and the
`UnboundLocalError` on `func` for an unknown solver tag. -/
def animate (st : GUIState) (interval : Int) (yscale : String) :
    Option (GUIState × List Action) :=
  let stopActs := if st.anim_running then [Action.timerStop] else []
  match st.solver with
  | none => none
  | some sv =>
    match st.bf with
    | none => none
    | some _ =>
      if MC_LIST.contains sv.solverTag || EA_LIST.contains sv.solverTag then
        some ({ st with anim_running := true, has_anim := true }, stopActs)
      else none

/-- The seeding prefix of `StochOGUI.run`'s body: clears `first_run`,
and, unless the fix-seed box is checked, overwrites the seed variable
with `np.random.randint(MAX_SEED)` drawn from the global generator. -/
def runSeeded (env : Env) (st : GUIState) : GUIState :=
  let st1 := if st.first_run then { st with first_run := false } else st
  if st1.fix_seed then st1
  else { st1 with seed := (env.randint st1.rng).1,
                  rng := (env.randint st1.rng).2 }

/-- The state of `run` just before the solver dispatch: after
`np.random.seed(seed)` and `self.bf = BenchmarkFunction(func, n_dim=2)`. -/
def runReady (env : Env) (st : GUIState) : GUIState :=
  { runSeeded env st with
      rng := np_seed (runSeeded env st).seed,
      bf := some (funcId (runSeeded env st).function) }

/-- The body of `StochOGUI.run` under the passed `check_variables` guard:
seeds (`runSeeded`), calls `np.random.seed(seed)` and constructs the
benchmark function (`runReady`), dispatches on the lower-cased solver
name to `MonteCarlo(...).sample(...)` or
`Evolutionary(...).optimize(...)`, and finally animates. -/
def run_solve (env : Env) (st : GUIState) :
    Option (GUIState × List Action) :=
  let st4 := runReady env st
  let fname := funcId st4.function
  let lower := pyLower st4.solver_name
  let preActs := [Action.seedRNG st4.seed, Action.mkBenchmark fname 2]
  if MC_LIST.contains lower then
    let sr := env.runSample fname st4.max_iter st4.clip lower
        st4.stepsize st4.n_leap st4.rng
    let st5 := { st4 with solver := some sr.1, rng := sr.2 }
    let callAct := Action.sampleCall fname st4.max_iter st4.clip lower
        st4.stepsize st4.n_leap st4.rng
    match animate st5 st5.interval "log" with
    | none => none
    | some (st6, aActs) =>
        some (st6, preActs ++ [callAct] ++ aActs)
  else if EA_LIST.contains lower then
    let sr := env.runOptimize fname st4.popsize st4.max_iter st4.clip
        lower st4.w st4.c1 st4.c2 st4.gamma st4.CR st4.F st4.sigma
        st4.mu_perc st4.rng
    let st5 := { st4 with solver := some sr.1, rng := sr.2 }
    let callAct := Action.optimizeCall fname st4.popsize st4.max_iter
        st4.clip lower st4.w st4.c1 st4.c2 st4.gamma st4.CR st4.F
        st4.sigma st4.mu_perc st4.rng
    match animate st5 st5.interval "log" with
    | none => none
    | some (st6, aActs) =>
        some (st6, preActs ++ [callAct] ++ aActs)
  else
    match animate st4 st4.interval "log" with
    | none => none
    | some (st6, aActs) => some (st6, preActs ++ aActs)

/-- `StochOGUI.run`: when `check_variables` passes, runs `run_solve`;
when it fails, only the error dialog is shown and nothing else happens. -/
def run (env : Env) (st : GUIState) : Option (GUIState × List Action) :=
  match check_variables st.solver_name st.popsize with
  | none => none
  | some (ok, ds) =>
    if ok then
      (run_solve env st).map (fun r => (r.1, ds ++ r.2))
    else
      some (st, ds)

/-- `StochOGUI._onClick`: ignored while `first_run` is still set;
afterwards stops the animation timer and clears `anim_running` when it
was running, or starts it and sets `anim_running` when it was stopped.
`none` models the `AttributeError` on `self.anim` in the (unreachable)
case where `first_run` is clear but no animation was ever created. -/
def _onClick (st : GUIState) : Option (GUIState × List Action) :=
  if st.first_run then some (st, [])
  else if st.has_anim then
    if st.anim_running then
      some ({ st with anim_running := false }, [Action.timerStop])
    else
      some ({ st with anim_running := true }, [Action.timerStart])
  else none

/-- `StochOGUI._check_run`: shows the modal error
"No optimization performed yet." and returns `False` while `first_run`
is still set, otherwise returns `True`. -/
def _check_run (st : GUIState) : Bool × List Action :=
  if st.first_run then
    (false, [Action.showError "Error" "No optimization performed yet."])
  else (true, [])

/-- `StochOGUI.export_models`: when `_check_run` passes, opens the save
dialog and, if the returned filename is non-empty, pickles
`self.solver.models` to it.  `filename` is the string the dialog
returns; `none` models the `AttributeError` on `self.solver` in the
(unreachable) case where `first_run` is clear but no solver exists. -/
def export_models (st : GUIState) (filename : String) :
    Option (GUIState × List Action) :=
  match _check_run st with
  | (false, acts) => some (st, acts)
  | (true, _) =>
    if filename.length > 0 then
      match st.solver with
      | none => none
      | some sv =>
        some (st, [Action.saveDialog "Export models",
                   Action.writeFile filename sv.models])
    else some (st, [Action.saveDialog "Export models"])

/-- `StochOGUI.export_fitness`: as `export_models` but pickles
`self.solver.energy`. -/
def export_fitness (st : GUIState) (filename : String) :
    Option (GUIState × List Action) :=
  match _check_run st with
  | (false, acts) => some (st, acts)
  | (true, _) =>
    if filename.length > 0 then
      match st.solver with
      | none => none
      | some sv =>
        some (st, [Action.saveDialog "Export fitness",
                   Action.writeFile filename sv.energy])
    else some (st, [Action.saveDialog "Export fitness"])

/-- The loop of `StochOGUI._gfit` after the first column: carries the
running minimum `prev` and appends `min(prev, column.min())` for each
remaining column.  `none` models the error `ndarray.min()` raises on an
empty column. -/
def _gfit_aux (prev : Rat) : List (List Rat) → Option (List Rat)
  | [] => some []
  | c :: cs =>
    match c.min? with
    | none => none
    | some m => (_gfit_aux (min prev m) cs).map (fun r => min prev m :: r)

/-- `StochOGUI._gfit`: starts from the minimum of column 0 and folds
`min` over the per-column minima, producing the running global-best
fitness.  `energy` is given by its list of columns (`energy[:,i]`);
`none` models the `IndexError`/empty-`min` errors on a matrix without a
first column or with an empty column. -/
def _gfit (energy : List (List Rat)) : Option (List Rat) :=
  match energy with
  | [] => none
  | c :: cs =>
    match c.min? with
    | none => none
    | some m => (_gfit_aux m cs).map (fun r => m :: r)

/-- The data the two plot artists hold after a frame update:
`scatplot.set_data` and `enerplot.set_xdata`/`set_ydata`. -/
structure PlotFrame where
  scat_x : List Rat
  scat_y : List Rat
  ener_x : List Rat
  ener_y : List Rat
deriving DecidableEq, Repr

/-- `np.linspace(1, n, n)` for integral `n ≥ 1`: the list `1, …, n`. -/
def linspace1 (n : Nat) : List Rat :=
  (List.range n).map (fun k => ((k : Rat) + 1))

/-- `StochOGUI._update_monte_carlo`: frame `i` shows `models[0,:i]`
against `models[1,:i]` and the first `i+1` fitness values.  `none`
models the `IndexError` when `models` is not a 2-D array with at least
two rows (here: at least two columns of the transposed storage — the
code reads rows `models[0]` and `models[1]`, stored as the first two
entries of the column list `d2`). -/
def _update_monte_carlo (i : Nat) (models : NPArray) (gfit : List Rat) :
    Option PlotFrame :=
  match models with
  | NPArray.d2 (r0 :: r1 :: _) =>
    some ⟨r0.take i, r1.take i, linspace1 (i + 1), gfit.take (i + 1)⟩
  | _ => none

/-- Column `i` of a 2-D array given as a list of rows: `a[:,i]`.  `none`
models the `IndexError` when `i` is out of range in some row. -/
def npCol (rows : List (List Rat)) (i : Nat) : Option (List Rat) :=
  if rows.all (fun r => i < r.length) then
    some (rows.map (fun r => r.getD i 0))
  else none

/-- `StochOGUI._update_evolutionary`: frame `i` shows `models[0,:,i]`
against `models[1,:,i]` and the first `i+1` global-best values. -/
def _update_evolutionary (i : Nat) (models : NPArray) (gfit : List Rat) :
    Option PlotFrame :=
  match models with
  | NPArray.d3 (s0 :: s1 :: _) =>
    match npCol s0 i, npCol s1 i with
    | some x, some y =>
      some ⟨x, y, linspace1 (i + 1), gfit.take (i + 1)⟩
    | _, _ => none
  | _ => none

/-- One animation frame as `FuncAnimation` drives it: dispatches on the
solver tag exactly as `animate` chose `func` and `gfit`, and installs
the updated artist data.  The Monte Carlo branch uses `solver.energy`
directly as the fitness curve; the evolutionary branch uses
`_gfit(solver.energy)`. -/
def animStep (st : GUIState) (i : Nat) : Option (GUIState × PlotFrame) :=
  match st.solver with
  | none => none
  | some sv =>
    if MC_LIST.contains sv.solverTag then
      match sv.energy with
      | NPArray.d1 g =>
        (_update_monte_carlo i sv.models g).map (fun fr => (st, fr))
      | _ => none
    else if EA_LIST.contains sv.solverTag then
      match sv.energy with
      | NPArray.d2 cols =>
        match _gfit cols with
        | some g =>
          (_update_evolutionary i sv.models g).map (fun fr => (st, fr))
        | none => none
      | _ => none
    else none

/-- `StochOGUI.init_variables` together with the class-attribute flags:
the state of a freshly opened window (`log_stepsize` holds
`log10(0.1) = -1`; `rng` is an arbitrary initial generator state). -/
def init_state : GUIState :=
  { first_run := true
    anim_running := false
    has_anim := false
    solver_name := "CPSO"
    function := "Rosenbrock"
    popsize := 10
    max_iter := 200
    interval := 60
    stepsize := 1/10
    log_stepsize := -1
    n_leap := 10
    w := 72/100
    c1 := 149/100
    c2 := 149/100
    gamma := 125/100
    CR := 1/2
    F := 1
    sigma := 1
    mu_perc := 1/2
    seed := 42
    fix_seed := false
    clip := false
    bf := none
    solver := none
    rng := 0 }

/-- A concrete environment used to evaluate the model on closed inputs:
a degenerate generator and solvers returning fixed one-point arrays,
satisfying the library contracts. -/
def envW : Env where
  randint := fun s => (7, s + 1)
  randint_range := fun _ => ⟨by norm_num, by norm_num [MAX_SEED]⟩
  runSample := fun _ _ _ s _ _ r =>
    (⟨s, NPArray.d2 [[0], [0]], NPArray.d1 [1]⟩, r + 1)
  runOptimize := fun _ _ _ _ s _ _ _ _ _ _ _ _ r =>
    (⟨s, NPArray.d3 [[[0]], [[0]]], NPArray.d2 [[1]]⟩, r + 1)
  sample_tag := fun _ _ _ _ _ _ _ => rfl
  optimize_tag := fun _ _ _ _ _ _ _ _ _ _ _ _ _ _ => rfl

/-- The state after a first `run` from `init_state` in the `envW`
environment. -/
def state1 : GUIState :=
  { init_state with
      first_run := false
      anim_running := true
      has_anim := true
      seed := 7
      bf := some "rosenbrock"
      solver := some ⟨"cpso", NPArray.d3 [[[0]], [[0]]], NPArray.d2 [[1]]⟩
      rng := 8 }

/-- The action of that first `run`. -/
def call1 : Action :=
  Action.optimizeCall "rosenbrock" 10 200 false "cpso" (72/100) (149/100)
    (149/100) (125/100) (1/2) 1 1 (1/2) 7

/-- The trace of that first `run`. -/
def trace1 : List Action :=
  [Action.seedRNG 7, Action.mkBenchmark "rosenbrock" 2, call1]

/-- The generator-state argument recorded in a solver call. -/
def actionRng : Action → Option Int
  | Action.sampleCall _ _ _ _ _ _ r => some r
  | Action.optimizeCall _ _ _ _ _ _ _ _ _ _ _ _ _ r => some r
  | _ => none

/-- The `sample` invocation `run` makes for a Monte Carlo selection
(derived helper). -/
def mcCallAction (env : Env) (st : GUIState) : Action :=
  Action.sampleCall (funcId st.function) st.max_iter st.clip
    (pyLower st.solver_name) st.stepsize st.n_leap (runReady env st).rng

/-- The `optimize` invocation `run` makes for an evolutionary selection
(derived helper). -/
def eaCallAction (env : Env) (st : GUIState) : Action :=
  Action.optimizeCall (funcId st.function) st.popsize st.max_iter st.clip
    (pyLower st.solver_name) st.w st.c1 st.c2 st.gamma st.CR st.F st.sigma
    st.mu_perc (runReady env st).rng

/-- A Hastings selection with a fixed seed, for concrete evaluation. -/
def stW9 : GUIState :=
  { init_state with solver_name := "Hastings", fix_seed := true }

/-- The state after running `stW9` in the `envW` environment. -/
def state9 : GUIState :=
  { init_state with
      first_run := false
      anim_running := true
      has_anim := true
      solver_name := "Hastings"
      fix_seed := true
      bf := some "rosenbrock"
      solver := some ⟨"hastings", NPArray.d2 [[0], [0]], NPArray.d1 [1]⟩
      rng := 43 }

/-- The trace of that run. -/
def trace9 : List Action :=
  [Action.seedRNG 42, Action.mkBenchmark "rosenbrock" 2,
   Action.sampleCall "rosenbrock" 200 false "hastings" (1/10) 10 42]

/-! ## Helper lemmas -/

/-- Concrete evaluation of a full successful `run`. -/
theorem run_envW_init : run envW init_state = some (state1, trace1) := by
  rfl

/-- When `check_variables` returns `True`, no dialog is shown. -/
theorem check_variables_true_nil {s : String} {p : Int} {ds : List Action}
    (h : check_variables s p = some (true, ds)) : ds = [] := by
  simp only [check_variables] at h
  split at h
  · split at h
    · simp at h
    · split at h <;> simp_all
  · simp_all

/-- When `check_variables` returns `False`, the only action is the one
modal error dialog. -/
theorem check_variables_false_shape {s : String} {p : Int}
    {ds : List Action} (h : check_variables s p = some (false, ds)) :
    ∃ msg, ds = [Action.showError "Error" msg] := by
  simp only [check_variables] at h
  split at h
  · split at h
    · simp at h
    · split at h
      · simp at h
        exact ⟨_, h.symm⟩
      · simp at h
  · simp at h

/-! ## Claims -/

/-- C2: for every step-size entry string that cannot be parsed as a
floating-point number (`parse val = none`, modelling the `ValueError` of
Python `float`), `_validate_stepsize` raises no error, leaves the
`log_stepsize` variable unchanged, and returns `True`. -/
theorem c2_invalid_stepsize_ignored
    (parse : String → Option Rat) (log10 : Rat → Rat)
    (st : GUIState) (val : String) (h : parse val = none) :
    _validate_stepsize parse log10 st val = (st, true) := by
  simp [_validate_stepsize, h]

theorem c2_witness :
    _validate_stepsize (fun _ => none) id init_state "abc" =
      (init_state, true) :=
  c2_invalid_stepsize_ignored (fun _ => none) id init_state "abc" rfl

/-- C10: `_validate_stepsize` is total and returns `True` for every input
string and every interpretation of `float` parsing and of the (total, on
floats) `np.log10`; the `log_stepsize` variable is set to `log10` of the
parsed value exactly when the string parses — also for non-positive
values, since `np.log10` yields `nan`/`-inf` there instead of raising —
and is left unchanged otherwise. -/
theorem c10_validate_stepsize_total
    (parse : String → Option Rat) (log10 : Rat → Rat)
    (st : GUIState) (val : String) :
    (_validate_stepsize parse log10 st val).2 = true ∧
    (_validate_stepsize parse log10 st val).1 =
      (match parse val with
       | some x => { st with log_stepsize := log10 x }
       | none => st) := by
  cases h : parse val <;> simp [_validate_stepsize, h]

/-- Unfolding of one loop iteration of `_gfit`. -/
theorem _gfit_aux_cons {prev : Rat} {c : List Rat} {cs : List (List Rat)}
    {r : List Rat} (h : _gfit_aux prev (c :: cs) = some r) :
    ∃ m r', c.min? = some m ∧ _gfit_aux (min prev m) cs = some r' ∧
      r = min prev m :: r' := by
  simp only [_gfit_aux] at h
  rcases hm : c.min? with _ | m <;> rw [hm] at h
  · simp at h
  · rcases Option.map_eq_some'.mp h with ⟨r', hr', heq⟩
    exact ⟨m, r', rfl, hr', heq.symm⟩

/-- The loop of `_gfit` yields one value per remaining column. -/
theorem _gfit_aux_length (cs : List (List Rat)) :
    ∀ prev r, _gfit_aux prev cs = some r → r.length = cs.length := by
  induction cs with
  | nil =>
    intro prev r h
    simp only [_gfit_aux] at h
    injection h with h
    simp [← h]
  | cons c cs ih =>
    intro prev r h
    rcases _gfit_aux_cons h with ⟨m, r', _, hr', rfl⟩
    simp [ih _ _ hr']

/-- Elementwise description of the loop of `_gfit`: the first produced
value is `min prev (head column).min()`, and each later value is the
`min` of its predecessor and that column's minimum. -/
theorem _gfit_aux_get (cs : List (List Rat)) :
    ∀ prev r, _gfit_aux prev cs = some r →
      (∀ hd tl, cs = hd :: tl →
        ∃ m, hd.min? = some m ∧ r.getD 0 0 = min prev m) ∧
      (∀ i : Nat, i + 1 < cs.length →
        ∃ m, (cs.getD (i + 1) []).min? = some m ∧
          r.getD (i + 1) 0 = min (r.getD i 0) m) := by
  induction cs with
  | nil =>
    intro prev r _
    refine ⟨?_, ?_⟩
    · intro hd tl hcontra
      simp at hcontra
    · intro i hi
      simp at hi
  | cons c cs ih =>
    intro prev r h
    rcases _gfit_aux_cons h with ⟨m, r', hm, hr', rfl⟩
    refine ⟨?_, ?_⟩
    · intro hd tl heq
      cases heq
      exact ⟨m, hm, by simp⟩
    · intro i hi
      cases i with
      | zero =>
        cases cs with
        | nil => simp at hi
        | cons c' cs' =>
          rcases (ih _ _ hr').1 c' cs' rfl with ⟨m', hm', h0⟩
          exact ⟨m', by simpa using hm', by simpa using h0⟩
      | succ k =>
        have hk : k + 1 < cs.length := by simpa using hi
        rcases (ih _ _ hr').2 k hk with ⟨m', hm', hstep⟩
        exact ⟨m', by simpa using hm', by simpa using hstep⟩

/-- A list whose consecutive elements never increase is monotonically
non-increasing. -/
theorem getD_antitone_of_step (l : List Rat)
    (h : ∀ i : Nat, i + 1 < l.length → l.getD (i + 1) 0 ≤ l.getD i 0) :
    ∀ i j : Nat, i ≤ j → j < l.length → l.getD j 0 ≤ l.getD i 0 := by
  intro i j hij
  induction hij with
  | refl => intro _; exact le_refl _
  | @step j hij ih =>
    intro hj
    exact le_trans (h j hj) (ih (Nat.lt_of_succ_lt hj))

/-- C8: for every fitness matrix with at least one column (and no empty
column, i.e. whenever `_gfit` does not raise), the result has one entry
per column, its entry 0 is the minimum of column 0, its entry `i + 1` is
the minimum of entry `i` and the minimum of column `i + 1`, and the
resulting global-best-fitness curve is monotonically non-increasing. -/
theorem c8_gfit_running_minimum (energy : List (List Rat)) (g : List Rat)
    (h : _gfit energy = some g) :
    g.length = energy.length ∧
    (∃ m0, (energy.getD 0 []).min? = some m0 ∧ g.getD 0 0 = m0) ∧
    (∀ i : Nat, i + 1 < energy.length →
      ∃ m, (energy.getD (i + 1) []).min? = some m ∧
        g.getD (i + 1) 0 = min (g.getD i 0) m) ∧
    (∀ i j : Nat, i ≤ j → j < g.length → g.getD j 0 ≤ g.getD i 0) := by
  cases energy with
  | nil => simp [_gfit] at h
  | cons c cs =>
    simp only [_gfit] at h
    rcases hm : c.min? with _ | m <;> rw [hm] at h
    · simp at h
    · rcases Option.map_eq_some'.mp h with ⟨r', hr', heq⟩
      cases heq.symm
      have hlen : (m :: r').length = (c :: cs).length := by
        simp [_gfit_aux_length cs m r' hr']
      have hstep : ∀ i : Nat, i + 1 < (c :: cs).length →
          ∃ m', ((c :: cs).getD (i + 1) []).min? = some m' ∧
            (m :: r').getD (i + 1) 0 = min ((m :: r').getD i 0) m' := by
        intro i hi
        cases i with
        | zero =>
          cases cs with
          | nil => simp at hi
          | cons c' cs' =>
            rcases (_gfit_aux_get _ _ _ hr').1 c' cs' rfl with ⟨m', hm', h0⟩
            exact ⟨m', by simpa using hm', by simpa using h0⟩
        | succ k =>
          have hk : k + 1 < cs.length := by simpa using hi
          rcases (_gfit_aux_get _ _ _ hr').2 k hk with ⟨m', hm', hs⟩
          exact ⟨m', by simpa using hm', by simpa using hs⟩
      refine ⟨hlen, ⟨m, by simpa using hm, by simp⟩, hstep, ?_⟩
      apply getD_antitone_of_step
      intro i hi
      rcases hstep i (by rw [← hlen]; exact hi) with ⟨m', _, heq'⟩
      rw [heq']
      exact min_le_left _ _

theorem c8_witness :
    _gfit [[3, 1], [2, 5], [0, 4]] = some [1, 1, 0] ∧
    ([(1 : Rat), 1, 0] : List Rat).length =
      ([[(3 : Rat), 1], [2, 5], [0, 4]] : List (List Rat)).length :=
  ⟨by decide,
   (c8_gfit_running_minimum [[3, 1], [2, 5], [0, 4]] [1, 1, 0]
      (by decide)).1⟩

/-- `run` under a failed check: only the dialog is returned. -/
theorem run_of_check_false (env : Env) (st : GUIState) {ds : List Action}
    (h : check_variables st.solver_name st.popsize = some (false, ds)) :
    run env st = some (st, ds) := by
  simp [run, h]

/-- `run` under a passed check: the body `run_solve` with no dialog. -/
theorem run_of_check_true {env : Env} {st : GUIState}
    (h : check_variables st.solver_name st.popsize = some (true, [])) :
    run env st = run_solve env st := by
  simp only [run, h]
  cases run_solve env st <;> rfl

/-- C5: when the population-size validation fails, `run` returns with the
state unchanged — no benchmark function or solver is constructed, the
random generator is not reseeded, and `first_run`, the seed variable and
all stored arrays keep their values — and the only observable action is
the modal error dialog. -/
theorem c5_failed_check_leaves_state (env : Env) (st : GUIState)
    (ds : List Action)
    (h : check_variables st.solver_name st.popsize = some (false, ds)) :
    run env st = some (st, ds) ∧
    ∀ a ∈ ds, ∃ msg, a = Action.showError "Error" msg := by
  refine ⟨run_of_check_false env st h, ?_⟩
  rcases check_variables_false_shape h with ⟨msg, rfl⟩
  intro a ha
  simp at ha
  exact ⟨msg, ha⟩

theorem c5_witness :
    run envW { init_state with popsize := 1 } =
      some ({ init_state with popsize := 1 },
        [Action.showError "Error"
          "For CPSO, population size should be greater than 1."]) :=
  (c5_failed_check_leaves_state envW { init_state with popsize := 1 } _
    (by decide)).1

/-- Evaluation of `check_variables` at the menu entry `"CPSO"`. -/
theorem check_CPSO (p : Int) : check_variables "CPSO" p =
    if p < 2 then
      some (false, [Action.showError "Error"
        "For CPSO, population size should be greater than 1."])
    else some (true, []) := by
  have h1 : pyLower "CPSO" = "cpso" := by decide
  have h2 : pyUpper "cpso" = "CPSO" := by decide
  have h3 : EAOPT.contains ("CPSO" : String) = true := by decide
  have h4 : MIN_POPSIZE.lookup ("cpso" : String) = some 2 := by decide
  have h5 : "For CPSO, population size should be greater than " ++
      toString (1 : Int) ++ "." =
      "For CPSO, population size should be greater than 1." := by decide
  have h6 : ("CPSO" : String) ∈ EAOPT := by decide
  simp [check_variables, h1, h2, h3, h4, h5, h6]

/-- Evaluation of `check_variables` at the menu entry `"PSO"`. -/
theorem check_PSO (p : Int) : check_variables "PSO" p =
    if p < 2 then
      some (false, [Action.showError "Error"
        "For PSO, population size should be greater than 1."])
    else some (true, []) := by
  have h1 : pyLower "PSO" = "pso" := by decide
  have h2 : pyUpper "pso" = "PSO" := by decide
  have h3 : EAOPT.contains ("PSO" : String) = true := by decide
  have h4 : MIN_POPSIZE.lookup ("pso" : String) = some 2 := by decide
  have h5 : "For PSO, population size should be greater than " ++
      toString (1 : Int) ++ "." =
      "For PSO, population size should be greater than 1." := by decide
  have h6 : ("PSO" : String) ∈ EAOPT := by decide
  simp [check_variables, h1, h2, h3, h4, h5, h6]

/-- Evaluation of `check_variables` at the menu entry `"DE"`. -/
theorem check_DE (p : Int) : check_variables "DE" p =
    if p < 4 then
      some (false, [Action.showError "Error"
        "For DE, population size should be greater than 3."])
    else some (true, []) := by
  have h1 : pyLower "DE" = "de" := by decide
  have h2 : pyUpper "de" = "DE" := by decide
  have h3 : EAOPT.contains ("DE" : String) = true := by decide
  have h4 : MIN_POPSIZE.lookup ("de" : String) = some 4 := by decide
  have h5 : "For DE, population size should be greater than " ++
      toString (3 : Int) ++ "." =
      "For DE, population size should be greater than 3." := by decide
  have h6 : ("DE" : String) ∈ EAOPT := by decide
  simp [check_variables, h1, h2, h3, h4, h5, h6]

/-- Evaluation of `check_variables` at the menu entry `"CMAES"`. -/
theorem check_CMAES (p : Int) : check_variables "CMAES" p =
    if p < 4 then
      some (false, [Action.showError "Error"
        "For CMAES, population size should be greater than 3."])
    else some (true, []) := by
  have h1 : pyLower "CMAES" = "cmaes" := by decide
  have h2 : pyUpper "cmaes" = "CMAES" := by decide
  have h3 : EAOPT.contains ("CMAES" : String) = true := by decide
  have h4 : MIN_POPSIZE.lookup ("cmaes" : String) = some 4 := by decide
  have h5 : "For CMAES, population size should be greater than " ++
      toString (3 : Int) ++ "." =
      "For CMAES, population size should be greater than 3." := by decide
  have h6 : ("CMAES" : String) ∈ EAOPT := by decide
  simp [check_variables, h1, h2, h3, h4, h5, h6]

/-- Evaluation of `check_variables` at the menu entry `"Hastings"`. -/
theorem check_Hastings (p : Int) :
    check_variables "Hastings" p = some (true, []) := by
  have h1 : pyLower "Hastings" = "hastings" := by decide
  have h2 : pyUpper "hastings" = "HASTINGS" := by decide
  have h3 : ¬ (("HASTINGS" : String) ∈ EAOPT) := by decide
  simp [check_variables, h1, h2, h3]

/-- Evaluation of `check_variables` at the menu entry `"Hamiltonian"`. -/
theorem check_Hamiltonian (p : Int) :
    check_variables "Hamiltonian" p = some (true, []) := by
  have h1 : pyLower "Hamiltonian" = "hamiltonian" := by decide
  have h2 : pyUpper "hamiltonian" = "HAMILTONIAN" := by decide
  have h3 : ¬ (("HAMILTONIAN" : String) ∈ EAOPT) := by decide
  simp [check_variables, h1, h2, h3]

/-- C1: for each evolutionary selection, `check_variables` returns
`False` and shows the modal error dialog exactly when the entered
population size is strictly below that solver's minimum (2 for CPSO and
PSO, 4 for DE and CMAES); for the Monte Carlo selections it returns
`True` for every population size; and `run` constructs and invokes a
solver only when `check_variables` returned `True`. -/
theorem c1_popsize_validation :
    (∀ p : Int,
      (p < 2 → check_variables "CPSO" p = some (false,
        [Action.showError "Error"
          "For CPSO, population size should be greater than 1."])) ∧
      (2 ≤ p → check_variables "CPSO" p = some (true, []))) ∧
    (∀ p : Int,
      (p < 2 → check_variables "PSO" p = some (false,
        [Action.showError "Error"
          "For PSO, population size should be greater than 1."])) ∧
      (2 ≤ p → check_variables "PSO" p = some (true, []))) ∧
    (∀ p : Int,
      (p < 4 → check_variables "DE" p = some (false,
        [Action.showError "Error"
          "For DE, population size should be greater than 3."])) ∧
      (4 ≤ p → check_variables "DE" p = some (true, []))) ∧
    (∀ p : Int,
      (p < 4 → check_variables "CMAES" p = some (false,
        [Action.showError "Error"
          "For CMAES, population size should be greater than 3."])) ∧
      (4 ≤ p → check_variables "CMAES" p = some (true, []))) ∧
    (∀ p : Int, check_variables "Hastings" p = some (true, []) ∧
      check_variables "Hamiltonian" p = some (true, [])) ∧
    (∀ env st st' tr, run env st = some (st', tr) →
      (∃ a ∈ tr, isSolverCall a = true) →
      check_variables st.solver_name st.popsize = some (true, [])) := by
  refine ⟨?_, ?_, ?_, ?_, ?_, ?_⟩
  · intro p
    exact ⟨fun hp => by rw [check_CPSO, if_pos hp],
           fun hp => by rw [check_CPSO, if_neg (not_lt.mpr hp)]⟩
  · intro p
    exact ⟨fun hp => by rw [check_PSO, if_pos hp],
           fun hp => by rw [check_PSO, if_neg (not_lt.mpr hp)]⟩
  · intro p
    exact ⟨fun hp => by rw [check_DE, if_pos hp],
           fun hp => by rw [check_DE, if_neg (not_lt.mpr hp)]⟩
  · intro p
    exact ⟨fun hp => by rw [check_CMAES, if_pos hp],
           fun hp => by rw [check_CMAES, if_neg (not_lt.mpr hp)]⟩
  · intro p
    exact ⟨check_Hastings p, check_Hamiltonian p⟩
  · intro env st st' tr hrun hex
    rcases hex with ⟨a, ha, hcall⟩
    rcases hc : check_variables st.solver_name st.popsize with _ | ⟨ok, ds⟩
    · simp [run, hc] at hrun
    · cases ok
      · simp [run, hc] at hrun
        rcases hrun with ⟨heq1, heq2⟩
        subst heq2
        rcases check_variables_false_shape hc with ⟨msg, rfl⟩
        simp at ha
        subst ha
        simp [isSolverCall] at hcall
      · have := check_variables_true_nil hc
        subst this
        rfl

theorem c1_witness :
    check_variables "CPSO" 1 = some (false,
      [Action.showError "Error"
        "For CPSO, population size should be greater than 1."]) ∧
    check_variables "DE" 4 = some (true, []) ∧
    check_variables "Hastings" (-7) = some (true, []) ∧
    check_variables init_state.solver_name init_state.popsize =
      some (true, []) := by
  refine ⟨(c1_popsize_validation.1 1).1 (by norm_num),
          (c1_popsize_validation.2.2.1 4).2 (by norm_num),
          (c1_popsize_validation.2.2.2.2.1 (-7)).1, ?_⟩
  exact c1_popsize_validation.2.2.2.2.2 envW init_state state1 trace1
    run_envW_init
    ⟨call1,
     List.mem_cons_of_mem _ (List.mem_cons_of_mem _ (List.mem_cons_self _ _)),
     rfl⟩

/-- Field lemmas for the seeding step: every widget variable other than
the seed (and the `first_run` flag and generator state) is untouched. -/
theorem runSeeded_seed (env : Env) (st : GUIState) :
    (runSeeded env st).seed =
      if st.fix_seed = true then st.seed else (env.randint st.rng).1 := by
  unfold runSeeded
  cases hf : st.first_run <;> cases hx : st.fix_seed <;> simp [hf, hx]

theorem runSeeded_first_run (env : Env) (st : GUIState) :
    (runSeeded env st).first_run = false ∨
    (runSeeded env st).first_run = st.first_run := by
  unfold runSeeded
  cases hf : st.first_run <;> cases hx : st.fix_seed <;> simp [hf, hx]

theorem runSeeded_anim_running (env : Env) (st : GUIState) :
    (runSeeded env st).anim_running = st.anim_running := by
  unfold runSeeded
  cases hf : st.first_run <;> cases hx : st.fix_seed <;> simp [hf, hx]

theorem runSeeded_has_anim (env : Env) (st : GUIState) :
    (runSeeded env st).has_anim = st.has_anim := by
  unfold runSeeded
  cases hf : st.first_run <;> cases hx : st.fix_seed <;> simp [hf, hx]

theorem runSeeded_solver_name (env : Env) (st : GUIState) :
    (runSeeded env st).solver_name = st.solver_name := by
  unfold runSeeded
  cases hf : st.first_run <;> cases hx : st.fix_seed <;> simp [hf, hx]

theorem runSeeded_function (env : Env) (st : GUIState) :
    (runSeeded env st).function = st.function := by
  unfold runSeeded
  cases hf : st.first_run <;> cases hx : st.fix_seed <;> simp [hf, hx]

theorem runSeeded_popsize (env : Env) (st : GUIState) :
    (runSeeded env st).popsize = st.popsize := by
  unfold runSeeded
  cases hf : st.first_run <;> cases hx : st.fix_seed <;> simp [hf, hx]

theorem runSeeded_max_iter (env : Env) (st : GUIState) :
    (runSeeded env st).max_iter = st.max_iter := by
  unfold runSeeded
  cases hf : st.first_run <;> cases hx : st.fix_seed <;> simp [hf, hx]

theorem runSeeded_interval (env : Env) (st : GUIState) :
    (runSeeded env st).interval = st.interval := by
  unfold runSeeded
  cases hf : st.first_run <;> cases hx : st.fix_seed <;> simp [hf, hx]

theorem runSeeded_stepsize (env : Env) (st : GUIState) :
    (runSeeded env st).stepsize = st.stepsize := by
  unfold runSeeded
  cases hf : st.first_run <;> cases hx : st.fix_seed <;> simp [hf, hx]

theorem runSeeded_log_stepsize (env : Env) (st : GUIState) :
    (runSeeded env st).log_stepsize = st.log_stepsize := by
  unfold runSeeded
  cases hf : st.first_run <;> cases hx : st.fix_seed <;> simp [hf, hx]

theorem runSeeded_n_leap (env : Env) (st : GUIState) :
    (runSeeded env st).n_leap = st.n_leap := by
  unfold runSeeded
  cases hf : st.first_run <;> cases hx : st.fix_seed <;> simp [hf, hx]

theorem runSeeded_w (env : Env) (st : GUIState) :
    (runSeeded env st).w = st.w := by
  unfold runSeeded
  cases hf : st.first_run <;> cases hx : st.fix_seed <;> simp [hf, hx]

theorem runSeeded_c1 (env : Env) (st : GUIState) :
    (runSeeded env st).c1 = st.c1 := by
  unfold runSeeded
  cases hf : st.first_run <;> cases hx : st.fix_seed <;> simp [hf, hx]

theorem runSeeded_c2 (env : Env) (st : GUIState) :
    (runSeeded env st).c2 = st.c2 := by
  unfold runSeeded
  cases hf : st.first_run <;> cases hx : st.fix_seed <;> simp [hf, hx]

theorem runSeeded_gamma (env : Env) (st : GUIState) :
    (runSeeded env st).gamma = st.gamma := by
  unfold runSeeded
  cases hf : st.first_run <;> cases hx : st.fix_seed <;> simp [hf, hx]

theorem runSeeded_CR (env : Env) (st : GUIState) :
    (runSeeded env st).CR = st.CR := by
  unfold runSeeded
  cases hf : st.first_run <;> cases hx : st.fix_seed <;> simp [hf, hx]

theorem runSeeded_F (env : Env) (st : GUIState) :
    (runSeeded env st).F = st.F := by
  unfold runSeeded
  cases hf : st.first_run <;> cases hx : st.fix_seed <;> simp [hf, hx]

theorem runSeeded_sigma (env : Env) (st : GUIState) :
    (runSeeded env st).sigma = st.sigma := by
  unfold runSeeded
  cases hf : st.first_run <;> cases hx : st.fix_seed <;> simp [hf, hx]

theorem runSeeded_mu_perc (env : Env) (st : GUIState) :
    (runSeeded env st).mu_perc = st.mu_perc := by
  unfold runSeeded
  cases hf : st.first_run <;> cases hx : st.fix_seed <;> simp [hf, hx]

theorem runSeeded_fix_seed (env : Env) (st : GUIState) :
    (runSeeded env st).fix_seed = st.fix_seed := by
  unfold runSeeded
  cases hf : st.first_run <;> cases hx : st.fix_seed <;> simp [hf, hx]

theorem runSeeded_clip (env : Env) (st : GUIState) :
    (runSeeded env st).clip = st.clip := by
  unfold runSeeded
  cases hf : st.first_run <;> cases hx : st.fix_seed <;> simp [hf, hx]

theorem runSeeded_bf (env : Env) (st : GUIState) :
    (runSeeded env st).bf = st.bf := by
  unfold runSeeded
  cases hf : st.first_run <;> cases hx : st.fix_seed <;> simp [hf, hx]

theorem runSeeded_solver (env : Env) (st : GUIState) :
    (runSeeded env st).solver = st.solver := by
  unfold runSeeded
  cases hf : st.first_run <;> cases hx : st.fix_seed <;> simp [hf, hx]

theorem runReady_anim_running (env : Env) (st : GUIState) :
    (runReady env st).anim_running = st.anim_running :=
  runSeeded_anim_running env st

theorem runReady_has_anim (env : Env) (st : GUIState) :
    (runReady env st).has_anim = st.has_anim :=
  runSeeded_has_anim env st

theorem runReady_solver_name (env : Env) (st : GUIState) :
    (runReady env st).solver_name = st.solver_name :=
  runSeeded_solver_name env st

theorem runReady_function (env : Env) (st : GUIState) :
    (runReady env st).function = st.function :=
  runSeeded_function env st

theorem runReady_popsize (env : Env) (st : GUIState) :
    (runReady env st).popsize = st.popsize :=
  runSeeded_popsize env st

theorem runReady_max_iter (env : Env) (st : GUIState) :
    (runReady env st).max_iter = st.max_iter :=
  runSeeded_max_iter env st

theorem runReady_interval (env : Env) (st : GUIState) :
    (runReady env st).interval = st.interval :=
  runSeeded_interval env st

theorem runReady_stepsize (env : Env) (st : GUIState) :
    (runReady env st).stepsize = st.stepsize :=
  runSeeded_stepsize env st

theorem runReady_log_stepsize (env : Env) (st : GUIState) :
    (runReady env st).log_stepsize = st.log_stepsize :=
  runSeeded_log_stepsize env st

theorem runReady_n_leap (env : Env) (st : GUIState) :
    (runReady env st).n_leap = st.n_leap :=
  runSeeded_n_leap env st

theorem runReady_w (env : Env) (st : GUIState) :
    (runReady env st).w = st.w :=
  runSeeded_w env st

theorem runReady_c1 (env : Env) (st : GUIState) :
    (runReady env st).c1 = st.c1 :=
  runSeeded_c1 env st

theorem runReady_c2 (env : Env) (st : GUIState) :
    (runReady env st).c2 = st.c2 :=
  runSeeded_c2 env st

theorem runReady_gamma (env : Env) (st : GUIState) :
    (runReady env st).gamma = st.gamma :=
  runSeeded_gamma env st

theorem runReady_CR (env : Env) (st : GUIState) :
    (runReady env st).CR = st.CR :=
  runSeeded_CR env st

theorem runReady_F (env : Env) (st : GUIState) :
    (runReady env st).F = st.F :=
  runSeeded_F env st

theorem runReady_sigma (env : Env) (st : GUIState) :
    (runReady env st).sigma = st.sigma :=
  runSeeded_sigma env st

theorem runReady_mu_perc (env : Env) (st : GUIState) :
    (runReady env st).mu_perc = st.mu_perc :=
  runSeeded_mu_perc env st

theorem runReady_fix_seed (env : Env) (st : GUIState) :
    (runReady env st).fix_seed = st.fix_seed :=
  runSeeded_fix_seed env st

theorem runReady_clip (env : Env) (st : GUIState) :
    (runReady env st).clip = st.clip :=
  runSeeded_clip env st

theorem runReady_solver (env : Env) (st : GUIState) :
    (runReady env st).solver = st.solver :=
  runSeeded_solver env st

theorem runReady_seed (env : Env) (st : GUIState) :
    (runReady env st).seed = (runSeeded env st).seed := rfl

theorem runReady_rng (env : Env) (st : GUIState) :
    (runReady env st).rng = np_seed (runSeeded env st).seed := rfl

theorem runReady_bf (env : Env) (st : GUIState) :
    (runReady env st).bf = some (funcId st.function) := by
  show some (funcId (runSeeded env st).function) = some (funcId st.function)
  rw [runSeeded_function]

/-- A successful `animate` only stops a running timer, raises the
animation flags, and leaves every other component of the state alone. -/
theorem animate_some {st : GUIState} {n : Int} {ys : String}
    {r : GUIState × List Action} (h : animate st n ys = some r) :
    r.1 = { st with anim_running := true, has_anim := true } ∧
    r.2 = (if st.anim_running then [Action.timerStop] else []) := by
  simp only [animate] at h
  rcases hs : st.solver with _ | sv <;> simp only [hs] at h
  · simp at h
  · rcases hb : st.bf with _ | b <;> simp only [hb] at h
    · simp at h
    · split at h
      · injection h with h
        subst h
        refine ⟨?_, rfl⟩
        simp [hs, hb]
      · simp at h

/-- Complete description of a successful `run_solve`: the state advances
to `runReady`, one of the three dispatch branches happens, and the
animation flags are raised. -/
theorem run_solve_spec {env : Env} {st : GUIState}
    {r : GUIState × List Action} (h : run_solve env st = some r) :
    (MC_LIST.contains (pyLower st.solver_name) = true ∧
      r.1 = { runReady env st with
        solver := some (env.runSample (funcId st.function) st.max_iter
          st.clip (pyLower st.solver_name) st.stepsize st.n_leap
          (runReady env st).rng).1,
        rng := (env.runSample (funcId st.function) st.max_iter st.clip
          (pyLower st.solver_name) st.stepsize st.n_leap
          (runReady env st).rng).2,
        anim_running := true, has_anim := true } ∧
      r.2 = [Action.seedRNG (runSeeded env st).seed,
             Action.mkBenchmark (funcId st.function) 2,
             Action.sampleCall (funcId st.function) st.max_iter st.clip
               (pyLower st.solver_name) st.stepsize st.n_leap
               (runReady env st).rng] ++
            (if st.anim_running then [Action.timerStop] else [])) ∨
    (MC_LIST.contains (pyLower st.solver_name) = false ∧
      EA_LIST.contains (pyLower st.solver_name) = true ∧
      r.1 = { runReady env st with
        solver := some (env.runOptimize (funcId st.function) st.popsize
          st.max_iter st.clip (pyLower st.solver_name) st.w st.c1 st.c2
          st.gamma st.CR st.F st.sigma st.mu_perc (runReady env st).rng).1,
        rng := (env.runOptimize (funcId st.function) st.popsize st.max_iter
          st.clip (pyLower st.solver_name) st.w st.c1 st.c2 st.gamma st.CR
          st.F st.sigma st.mu_perc (runReady env st).rng).2,
        anim_running := true, has_anim := true } ∧
      r.2 = [Action.seedRNG (runSeeded env st).seed,
             Action.mkBenchmark (funcId st.function) 2,
             Action.optimizeCall (funcId st.function) st.popsize st.max_iter
               st.clip (pyLower st.solver_name) st.w st.c1 st.c2 st.gamma
               st.CR st.F st.sigma st.mu_perc (runReady env st).rng] ++
            (if st.anim_running then [Action.timerStop] else [])) ∨
    (MC_LIST.contains (pyLower st.solver_name) = false ∧
      EA_LIST.contains (pyLower st.solver_name) = false ∧
      r.1 = { runReady env st with
        anim_running := true, has_anim := true } ∧
      r.2 = [Action.seedRNG (runSeeded env st).seed,
             Action.mkBenchmark (funcId st.function) 2] ++
            (if st.anim_running then [Action.timerStop] else [])) := by
  simp only [run_solve, runReady_solver_name, runReady_function,
    runReady_max_iter, runReady_clip, runReady_stepsize, runReady_n_leap,
    runReady_popsize, runReady_w, runReady_c1, runReady_c2, runReady_gamma,
    runReady_CR, runReady_F, runReady_sigma, runReady_mu_perc,
    runReady_seed, runReady_interval] at h
  split at h
  · rename_i hmc
    split at h
    · simp at h
    · rename_i st6 aActs heq
      rcases animate_some heq with ⟨h1, h2⟩
      injection h with h
      subst h
      refine Or.inl ⟨hmc, ?_, ?_⟩
      · simpa [runReady_solver_name, runReady_function, runReady_max_iter,
            runReady_clip, runReady_stepsize, runReady_n_leap,
            runReady_popsize, runReady_w, runReady_c1, runReady_c2,
            runReady_gamma, runReady_CR, runReady_F, runReady_sigma,
            runReady_mu_perc, runReady_seed, runReady_interval] using h1
      · simp at h2
        simp [h2, runReady_anim_running]
  · rename_i hmcn
    have hmc : MC_LIST.contains (pyLower st.solver_name) = false := by
      simpa using hmcn
    split at h
    · rename_i hea
      split at h
      · simp at h
      · rename_i st6 aActs heq
        rcases animate_some heq with ⟨h1, h2⟩
        injection h with h
        subst h
        refine Or.inr (Or.inl ⟨hmc, hea, ?_, ?_⟩)
        · simpa [runReady_solver_name, runReady_function, runReady_max_iter,
            runReady_clip, runReady_stepsize, runReady_n_leap,
            runReady_popsize, runReady_w, runReady_c1, runReady_c2,
            runReady_gamma, runReady_CR, runReady_F, runReady_sigma,
            runReady_mu_perc, runReady_seed, runReady_interval] using h1
        · simp at h2
          simp [h2, runReady_anim_running]
    · rename_i hean
      have hea : EA_LIST.contains (pyLower st.solver_name) = false := by
        simpa using hean
      split at h
      · simp at h
      · rename_i st6 aActs heq
        rcases animate_some heq with ⟨h1, h2⟩
        injection h with h
        subst h
        refine Or.inr (Or.inr ⟨hmc, hea, ?_, ?_⟩)
        · simpa [runReady_solver_name, runReady_function, runReady_max_iter,
            runReady_clip, runReady_stepsize, runReady_n_leap,
            runReady_popsize, runReady_w, runReady_c1, runReady_c2,
            runReady_gamma, runReady_CR, runReady_F, runReady_sigma,
            runReady_mu_perc, runReady_seed, runReady_interval] using h1
        · simp at h2
          simp [h2, runReady_anim_running]

/-- A non-empty string has positive length. -/
theorem length_pos_of_ne_empty {fn : String} (h : fn ≠ "") :
    0 < fn.length := by
  cases fn with
  | mk data =>
    cases data with
    | nil => exact absurd rfl h
    | cons c cs => simp [String.length]

/-- C3: before any completed run (`first_run` still set) both export
actions only show the modal error "No optimization performed yet." and
write nothing; after a run, a non-empty filename from the save dialog
makes `export_models` write exactly `solver.models` and `export_fitness`
exactly `solver.energy` to that file, and an empty filename writes
nothing. -/
theorem c3_export_guard_and_payload (st : GUIState) (fn : String) :
    (st.first_run = true →
      export_models st fn = some (st,
        [Action.showError "Error" "No optimization performed yet."]) ∧
      export_fitness st fn = some (st,
        [Action.showError "Error" "No optimization performed yet."])) ∧
    (∀ sv, st.first_run = false → st.solver = some sv → fn ≠ "" →
      export_models st fn = some (st,
        [Action.saveDialog "Export models",
         Action.writeFile fn sv.models]) ∧
      export_fitness st fn = some (st,
        [Action.saveDialog "Export fitness",
         Action.writeFile fn sv.energy])) ∧
    (st.first_run = false → fn = "" →
      export_models st fn = some (st, [Action.saveDialog "Export models"]) ∧
      export_fitness st fn =
        some (st, [Action.saveDialog "Export fitness"])) := by
  refine ⟨?_, ?_, ?_⟩
  · intro h
    constructor <;> simp [export_models, export_fitness, _check_run, h]
  · intro sv h hsv hfn
    have hlen : 0 < fn.length := length_pos_of_ne_empty hfn
    constructor <;>
      simp [export_models, export_fitness, _check_run, h, hsv, hlen]
  · intro h hfn
    subst hfn
    constructor <;> simp [export_models, export_fitness, _check_run, h]

theorem c3_witness :
    export_models init_state "f.pickle" = some (init_state,
      [Action.showError "Error" "No optimization performed yet."]) ∧
    export_models state1 "f.pickle" = some (state1,
      [Action.saveDialog "Export models",
       Action.writeFile "f.pickle" (NPArray.d3 [[[0]], [[0]]])]) ∧
    export_fitness state1 "" =
      some (state1, [Action.saveDialog "Export fitness"]) :=
  ⟨((c3_export_guard_and_payload init_state "f.pickle").1 rfl).1,
   ((c3_export_guard_and_payload state1 "f.pickle").2.1
      ⟨"cpso", NPArray.d3 [[[0]], [[0]]], NPArray.d2 [[1]]⟩ rfl rfl
      (by decide)).1,
   ((c3_export_guard_and_payload state1 "").2.2 rfl rfl).2⟩

/-- C6: a click on the canvas before the first run changes nothing; after
a first run has completed (which always leaves an animation object
behind, with its flags set), every click toggles `anim_running`, stopping
the timer when it was running and starting it when it was stopped; a
click can start the timer only when `first_run` is cleared. -/
theorem c6_click_toggles_after_first_run :
    (∀ st : GUIState, st.first_run = true → _onClick st = some (st, [])) ∧
    (∀ st : GUIState, st.first_run = false → st.has_anim = true →
      (st.anim_running = true →
        _onClick st =
          some ({ st with anim_running := false }, [Action.timerStop])) ∧
      (st.anim_running = false →
        _onClick st =
          some ({ st with anim_running := true }, [Action.timerStart]))) ∧
    (∀ env (st st' : GUIState) tr, run env st = some (st', tr) →
      st.first_run = true → st'.first_run = false →
      st'.has_anim = true ∧ st'.anim_running = true) ∧
    (∀ (st st' : GUIState) acts, _onClick st = some (st', acts) →
      Action.timerStart ∈ acts → st.first_run = false) := by
  refine ⟨?_, ?_, ?_, ?_⟩
  · intro st h
    simp [_onClick, h]
  · intro st h ha
    constructor <;> intro hr <;> simp [_onClick, h, ha, hr]
  · intro env st st' tr hrun h1 h2
    rcases hc : check_variables st.solver_name st.popsize with _ | ⟨ok, ds⟩
    · simp [run, hc] at hrun
    · cases ok
      · simp [run, hc] at hrun
        obtain ⟨rfl, rfl⟩ := hrun
        rw [h1] at h2
        simp at h2
      · have hnil := check_variables_true_nil hc
        subst hnil
        rw [run_of_check_true hc] at hrun
        rcases run_solve_spec hrun with ⟨_, hst, _⟩ | ⟨_, _, hst, _⟩ |
          ⟨_, _, hst, _⟩ <;> simp at hst <;> simp [hst]
  · intro st st' acts h hm
    cases hf : st.first_run
    · rfl
    · simp [_onClick, hf] at h
      obtain ⟨rfl, rfl⟩ := h
      simp at hm

theorem c6_witness :
    _onClick init_state = some (init_state, []) ∧
    _onClick state1 =
      some ({ state1 with anim_running := false }, [Action.timerStop]) ∧
    (state1.has_anim = true ∧ state1.anim_running = true) :=
  ⟨c6_click_toggles_after_first_run.1 init_state rfl,
   (c6_click_toggles_after_first_run.2.1 state1 rfl rfl).1 rfl,
   c6_click_toggles_after_first_run.2.2.1 envW init_state state1 trace1
     run_envW_init rfl rfl⟩

/-- C7: the trajectory (`solver.models`) and fitness (`solver.energy`)
arrays are assigned only by `run` — and there only as the result of the
one external solver call — while the animation functions (`animate` and
the frame updates driven through `animStep`), the export actions, the
canvas click handler and the step-size validator never modify the solver
object, so they only read the arrays. -/
theorem c7_solver_arrays_read_only :
    (∀ (st : GUIState) (n : Int) (ys : String) r,
      animate st n ys = some r → r.1.solver = st.solver) ∧
    (∀ (st : GUIState) (i : Nat) r, animStep st i = some r → r.1 = st) ∧
    (∀ (st : GUIState) (fn : String) r, export_models st fn = some r →
      r.1.solver = st.solver) ∧
    (∀ (st : GUIState) (fn : String) r, export_fitness st fn = some r →
      r.1.solver = st.solver) ∧
    (∀ (st : GUIState) r, _onClick st = some r →
      r.1.solver = st.solver) ∧
    (∀ parse log10 (st : GUIState) val,
      ((_validate_stepsize parse log10 st val).1).solver = st.solver) ∧
    (∀ env (st st' : GUIState) tr, run env st = some (st', tr) →
      st'.solver = st.solver ∨
      (∃ f mi c sn ss nl rg, Action.sampleCall f mi c sn ss nl rg ∈ tr ∧
        st'.solver = some (env.runSample f mi c sn ss nl rg).1) ∨
      (∃ f p mi c sn w1 a1 a2 g cr fw sg mp rg,
        Action.optimizeCall f p mi c sn w1 a1 a2 g cr fw sg mp rg ∈ tr ∧
        st'.solver =
          some (env.runOptimize f p mi c sn w1 a1 a2 g cr fw sg mp rg).1)) := by
  refine ⟨?_, ?_, ?_, ?_, ?_, ?_, ?_⟩
  · intro st n ys r h
    rcases animate_some h with ⟨h1, _⟩
    simp [h1]
  · intro st i r h
    simp only [animStep] at h
    rcases hs : st.solver with _ | sv <;> simp only [hs] at h
    · simp at h
    · split at h
      · split at h
        · rcases Option.map_eq_some'.mp h with ⟨fr, _, rfl⟩
          rfl
        · simp at h
      · split at h
        · split at h
          · split at h
            · rcases Option.map_eq_some'.mp h with ⟨fr, _, rfl⟩
              rfl
            · simp at h
          · simp at h
        · simp at h
  · intro st fn r h
    simp only [export_models] at h
    split at h
    · simp at h
      subst h
      rfl
    · split at h
      · rcases hs : st.solver with _ | sv <;> rw [hs] at h
        · simp at h
        · simp at h
          subst h
          exact hs
      · simp at h
        subst h
        rfl
  · intro st fn r h
    simp only [export_fitness] at h
    split at h
    · simp at h
      subst h
      rfl
    · split at h
      · rcases hs : st.solver with _ | sv <;> rw [hs] at h
        · simp at h
        · simp at h
          subst h
          exact hs
      · simp at h
        subst h
        rfl
  · intro st r h
    simp only [_onClick] at h
    split at h
    · simp at h
      subst h
      rfl
    · split at h
      · split at h <;> simp at h <;> subst h <;> rfl
      · simp at h
  · intro parse log10 st val
    cases h : parse val <;> simp [_validate_stepsize, h]
  · intro env st st' tr hrun
    rcases hc : check_variables st.solver_name st.popsize with _ | ⟨ok, ds⟩
    · simp [run, hc] at hrun
    · cases ok
      · simp [run, hc] at hrun
        obtain ⟨rfl, rfl⟩ := hrun
        exact Or.inl rfl
      · have hnil := check_variables_true_nil hc
        subst hnil
        rw [run_of_check_true hc] at hrun
        rcases run_solve_spec hrun with ⟨_, hst, htr⟩ |
          ⟨_, _, hst, htr⟩ | ⟨_, _, hst, _⟩
        · simp at hst htr
          refine Or.inr (Or.inl ⟨funcId st.function, st.max_iter, st.clip,
            pyLower st.solver_name, st.stepsize, st.n_leap,
            (runReady env st).rng, ?_, ?_⟩)
          · rw [htr]
            simp
          · simp [hst]
        · simp at hst htr
          refine Or.inr (Or.inr ⟨funcId st.function, st.popsize,
            st.max_iter, st.clip, pyLower st.solver_name, st.w, st.c1,
            st.c2, st.gamma, st.CR, st.F, st.sigma, st.mu_perc,
            (runReady env st).rng, ?_, ?_⟩)
          · rw [htr]
            simp
          · simp [hst]
        · simp at hst
          refine Or.inl ?_
          simp [hst, runReady_solver]

theorem c7_witness :
    _onClick state1 = some ({ state1 with anim_running := false },
      [Action.timerStop]) ∧
    ({ state1 with anim_running := false } : GUIState).solver =
      state1.solver :=
  ⟨by rfl,
   c7_solver_arrays_read_only.2.2.2.2.1 state1
     ({ state1 with anim_running := false }, [Action.timerStop])
     (by rfl)⟩

/-- A Monte Carlo selection always makes `run_solve` succeed, with the
`sample` call and the animation. -/
theorem run_solve_mc {env : Env} {st : GUIState}
    (hmc : MC_LIST.contains (pyLower st.solver_name) = true) :
    run_solve env st = some
      ({ runReady env st with
          solver := some (env.runSample (funcId st.function) st.max_iter
            st.clip (pyLower st.solver_name) st.stepsize st.n_leap
            (runReady env st).rng).1,
          rng := (env.runSample (funcId st.function) st.max_iter st.clip
            (pyLower st.solver_name) st.stepsize st.n_leap
            (runReady env st).rng).2,
          anim_running := true, has_anim := true },
       [Action.seedRNG (runSeeded env st).seed,
        Action.mkBenchmark (funcId st.function) 2, mcCallAction env st] ++
       (if st.anim_running then [Action.timerStop] else [])) := by
  have ht := env.sample_tag (funcId st.function) st.max_iter st.clip
    (pyLower st.solver_name) st.stepsize st.n_leap (runReady env st).rng
  have hmem : pyLower st.solver_name ∈ MC_LIST := by simpa using hmc
  simp [run_solve, runReady_solver_name, runReady_function,
    runReady_max_iter, runReady_clip, runReady_stepsize, runReady_n_leap,
    runReady_seed, runReady_interval, runReady_anim_running, runReady_bf,
    hmc, hmem, animate, ht, mcCallAction]

/-- An evolutionary selection always makes `run_solve` succeed, with the
`optimize` call and the animation. -/
theorem run_solve_ea {env : Env} {st : GUIState}
    (hmc : MC_LIST.contains (pyLower st.solver_name) = false)
    (hea : EA_LIST.contains (pyLower st.solver_name) = true) :
    run_solve env st = some
      ({ runReady env st with
          solver := some (env.runOptimize (funcId st.function) st.popsize
            st.max_iter st.clip (pyLower st.solver_name) st.w st.c1 st.c2
            st.gamma st.CR st.F st.sigma st.mu_perc
            (runReady env st).rng).1,
          rng := (env.runOptimize (funcId st.function) st.popsize
            st.max_iter st.clip (pyLower st.solver_name) st.w st.c1 st.c2
            st.gamma st.CR st.F st.sigma st.mu_perc
            (runReady env st).rng).2,
          anim_running := true, has_anim := true },
       [Action.seedRNG (runSeeded env st).seed,
        Action.mkBenchmark (funcId st.function) 2, eaCallAction env st] ++
       (if st.anim_running then [Action.timerStop] else [])) := by
  have ht := env.optimize_tag (funcId st.function) st.popsize st.max_iter
    st.clip (pyLower st.solver_name) st.w st.c1 st.c2 st.gamma st.CR st.F
    st.sigma st.mu_perc (runReady env st).rng
  have hmemn : ¬ pyLower st.solver_name ∈ MC_LIST := by simpa using hmc
  have hmem : pyLower st.solver_name ∈ EA_LIST := by simpa using hea
  simp [run_solve, runReady_solver_name, runReady_function,
    runReady_max_iter, runReady_clip, runReady_stepsize, runReady_n_leap,
    runReady_popsize, runReady_w, runReady_c1, runReady_c2,
    runReady_gamma, runReady_CR, runReady_F, runReady_sigma,
    runReady_mu_perc, runReady_seed, runReady_interval,
    runReady_anim_running, runReady_bf, hmc, hea, hmem, hmemn, animate,
    ht, eaCallAction]

/-- C4: for a Monte Carlo selection (`Hastings`, `Hamiltonian`) every
run constructs a `MonteCarlo` object and calls its `sample` method with
the step size and leap-frog count; for an evolutionary selection
(`CPSO`, `PSO`, `DE`, `CMAES`) every valid run constructs an
`Evolutionary` object and calls its `optimize` method with the
hyperparameters, the population size, the iteration count and the clip
flag; a solver call can only arise from one of these two branches. -/
theorem c4_run_dispatch (env : Env) (st : GUIState) :
    (st.solver_name ∈ MCOPT →
      ∃ st' tr, run env st = some (st', tr) ∧
        tr.filter isSolverCall =
          [Action.sampleCall (funcId st.function) st.max_iter st.clip
            (pyLower st.solver_name) st.stepsize st.n_leap
            (runReady env st).rng] ∧
        st'.solver = some (env.runSample (funcId st.function) st.max_iter
          st.clip (pyLower st.solver_name) st.stepsize st.n_leap
          (runReady env st).rng).1) ∧
    (st.solver_name ∈ EAOPT →
      check_variables st.solver_name st.popsize = some (true, []) →
      ∃ st' tr, run env st = some (st', tr) ∧
        tr.filter isSolverCall =
          [Action.optimizeCall (funcId st.function) st.popsize st.max_iter
            st.clip (pyLower st.solver_name) st.w st.c1 st.c2 st.gamma
            st.CR st.F st.sigma st.mu_perc (runReady env st).rng] ∧
        st'.solver = some (env.runOptimize (funcId st.function) st.popsize
          st.max_iter st.clip (pyLower st.solver_name) st.w st.c1 st.c2
          st.gamma st.CR st.F st.sigma st.mu_perc
          (runReady env st).rng).1) ∧
    (∀ st' tr a, run env st = some (st', tr) → a ∈ tr →
      isSolverCall a = true →
      MC_LIST.contains (pyLower st.solver_name) = true ∨
      EA_LIST.contains (pyLower st.solver_name) = true) := by
  refine ⟨?_, ?_, ?_⟩
  · intro hmem
    simp [MCOPT] at hmem
    have hck : check_variables st.solver_name st.popsize =
        some (true, []) := by
      rcases hmem with h | h <;> rw [h]
      · exact check_Hastings _
      · exact check_Hamiltonian _
    have hmc : MC_LIST.contains (pyLower st.solver_name) = true := by
      rcases hmem with h | h <;> rw [h] <;> decide
    refine ⟨{ runReady env st with
        solver := some (env.runSample (funcId st.function) st.max_iter
          st.clip (pyLower st.solver_name) st.stepsize st.n_leap
          (runReady env st).rng).1,
        rng := (env.runSample (funcId st.function) st.max_iter st.clip
          (pyLower st.solver_name) st.stepsize st.n_leap
          (runReady env st).rng).2,
        anim_running := true, has_anim := true },
      [Action.seedRNG (runSeeded env st).seed,
       Action.mkBenchmark (funcId st.function) 2, mcCallAction env st] ++
      (if st.anim_running then [Action.timerStop] else []), ?_, ?_, ?_⟩
    · rw [run_of_check_true hck]
      exact run_solve_mc hmc
    · cases ha : st.anim_running <;>
        simp [mcCallAction, isSolverCall, ha]
    · rfl
  · intro hmem hck
    simp [EAOPT] at hmem
    have hmc : MC_LIST.contains (pyLower st.solver_name) = false := by
      rcases hmem with h | h | h | h <;> rw [h] <;> decide
    have hea : EA_LIST.contains (pyLower st.solver_name) = true := by
      rcases hmem with h | h | h | h <;> rw [h] <;> decide
    refine ⟨{ runReady env st with
        solver := some (env.runOptimize (funcId st.function) st.popsize
          st.max_iter st.clip (pyLower st.solver_name) st.w st.c1 st.c2
          st.gamma st.CR st.F st.sigma st.mu_perc
          (runReady env st).rng).1,
        rng := (env.runOptimize (funcId st.function) st.popsize
          st.max_iter st.clip (pyLower st.solver_name) st.w st.c1 st.c2
          st.gamma st.CR st.F st.sigma st.mu_perc
          (runReady env st).rng).2,
        anim_running := true, has_anim := true },
      [Action.seedRNG (runSeeded env st).seed,
       Action.mkBenchmark (funcId st.function) 2, eaCallAction env st] ++
      (if st.anim_running then [Action.timerStop] else []), ?_, ?_, ?_⟩
    · rw [run_of_check_true hck]
      exact run_solve_ea hmc hea
    · cases ha : st.anim_running <;>
        simp [eaCallAction, isSolverCall, ha]
    · rfl
  · intro st' tr a hrun hmem hcall
    rcases hc : check_variables st.solver_name st.popsize with _ | ⟨ok, ds⟩
    · simp [run, hc] at hrun
    · cases ok
      · simp [run, hc] at hrun
        obtain ⟨rfl, rfl⟩ := hrun
        rcases check_variables_false_shape hc with ⟨msg, rfl⟩
        simp at hmem
        subst hmem
        simp [isSolverCall] at hcall
      · have hnil := check_variables_true_nil hc
        subst hnil
        rw [run_of_check_true hc] at hrun
        rcases run_solve_spec hrun with ⟨hb, _, _⟩ | ⟨_, hb, _, _⟩ |
          ⟨_, _, _, htr⟩
        · exact Or.inl hb
        · exact Or.inr hb
        · simp at htr
          rw [htr] at hmem
          cases ha : st.anim_running <;> simp [ha] at hmem
          · rcases hmem with rfl | rfl <;> simp [isSolverCall] at hcall
          · rcases hmem with rfl | rfl | rfl <;>
              simp [isSolverCall] at hcall

theorem c4_witness :
    init_state.solver_name ∈ EAOPT ∧
    (∃ st' tr, run envW init_state = some (st', tr) ∧
      tr.filter isSolverCall =
        [Action.optimizeCall (funcId init_state.function)
          init_state.popsize init_state.max_iter init_state.clip
          (pyLower init_state.solver_name) init_state.w init_state.c1
          init_state.c2 init_state.gamma init_state.CR init_state.F
          init_state.sigma init_state.mu_perc
          (runReady envW init_state).rng] ∧
      st'.solver = some (envW.runOptimize (funcId init_state.function)
        init_state.popsize init_state.max_iter init_state.clip
        (pyLower init_state.solver_name) init_state.w init_state.c1
        init_state.c2 init_state.gamma init_state.CR init_state.F
        init_state.sigma init_state.mu_perc
        (runReady envW init_state).rng).1) :=
  ⟨by decide,
   (c4_run_dispatch envW init_state).2.1 (by decide) (by decide)⟩

/-- The solver invocations of a valid `run` are a function of the
dispatch branch alone. -/
theorem run_calls_of_ok {env : Env} {st st' : GUIState} {tr : List Action}
    (hok : check_variables st.solver_name st.popsize = some (true, []))
    (hrun : run env st = some (st', tr)) :
    tr.filter isSolverCall =
      (if MC_LIST.contains (pyLower st.solver_name) = true
       then [mcCallAction env st]
       else if EA_LIST.contains (pyLower st.solver_name) = true
       then [eaCallAction env st] else []) := by
  rw [run_of_check_true hok] at hrun
  rcases run_solve_spec hrun with ⟨hb, _, htr⟩ | ⟨hb1, hb2, _, htr⟩ |
    ⟨hb1, hb2, _, htr⟩ <;> simp at htr <;> rw [htr]
  · have hm : pyLower st.solver_name ∈ MC_LIST := by simpa using hb
    cases ha : st.anim_running <;>
      simp [isSolverCall, mcCallAction, hb, hm, ha]
  · have hm1 : ¬ pyLower st.solver_name ∈ MC_LIST := by simpa using hb1
    have hm2 : pyLower st.solver_name ∈ EA_LIST := by simpa using hb2
    cases ha : st.anim_running <;>
      simp [isSolverCall, eaCallAction, hb1, hb2, hm1, hm2, ha]
  · have hm1 : ¬ pyLower st.solver_name ∈ MC_LIST := by simpa using hb1
    have hm2 : ¬ pyLower st.solver_name ∈ EA_LIST := by simpa using hb2
    cases ha : st.anim_running <;>
      simp [isSolverCall, hb1, hb2, hm1, hm2, ha]

/-- C9: every valid run seeds the numpy generator with the seed variable
before invoking the solver; with the fix-seed box unchecked the seed is
first overwritten by a fresh draw in `[0, 999998]`, with it checked the
seed is kept; every solver call receives the generator state produced by
`np.random.seed(seed)`, so two runs with fix-seed checked, the same seed
and the same parameters invoke the solver identically. -/
theorem c9_run_seeding (env : Env) (st st' : GUIState) (tr : List Action)
    (hok : check_variables st.solver_name st.popsize = some (true, []))
    (h : run env st = some (st', tr)) :
    (∃ rest, tr = Action.seedRNG (if st.fix_seed = true then st.seed
        else (env.randint st.rng).1) ::
        Action.mkBenchmark (funcId st.function) 2 :: rest) ∧
    (st.fix_seed = true → st'.seed = st.seed) ∧
    (st.fix_seed = false → st'.seed = (env.randint st.rng).1 ∧
      0 ≤ (env.randint st.rng).1 ∧ (env.randint st.rng).1 ≤ 999998) ∧
    (∀ a ∈ tr, isSolverCall a = true →
      actionRng a = some (np_seed (if st.fix_seed = true then st.seed
        else (env.randint st.rng).1))) ∧
    (st.fix_seed = true →
      ∀ (st2 st2' : GUIState) (tr2 : List Action),
        st2.solver_name = st.solver_name → st2.function = st.function →
        st2.popsize = st.popsize → st2.max_iter = st.max_iter →
        st2.stepsize = st.stepsize → st2.n_leap = st.n_leap →
        st2.w = st.w → st2.c1 = st.c1 → st2.c2 = st.c2 →
        st2.gamma = st.gamma → st2.CR = st.CR → st2.F = st.F →
        st2.sigma = st.sigma → st2.mu_perc = st.mu_perc →
        st2.clip = st.clip → st2.seed = st.seed → st2.fix_seed = true →
        run env st2 = some (st2', tr2) →
        tr2.filter isSolverCall = tr.filter isSolverCall) := by
  have hcalls := run_calls_of_ok hok h
  rw [run_of_check_true hok] at h
  have hrng : (runReady env st).rng =
      np_seed (if st.fix_seed = true then st.seed
        else (env.randint st.rng).1) := by
    rw [runReady_rng, runSeeded_seed]
  refine ⟨?_, ?_, ?_, ?_, ?_⟩
  · rcases run_solve_spec h with ⟨_, _, htr⟩ | ⟨_, _, _, htr⟩ |
      ⟨_, _, _, htr⟩ <;> simp at htr <;>
      exact ⟨_, by rw [htr, runSeeded_seed]⟩
  · intro hfix
    rcases run_solve_spec h with ⟨_, hst, _⟩ | ⟨_, _, hst, _⟩ |
      ⟨_, _, hst, _⟩ <;> simp at hst <;>
      rw [hst] <;> simp [runReady_seed, runSeeded_seed, hfix]
  · intro hfix
    rcases env.randint_range st.rng with ⟨h1, h2⟩
    have h3 : (env.randint st.rng).1 ≤ 999998 := by
      have : (env.randint st.rng).1 < 999999 := h2
      omega
    refine ⟨?_, h1, h3⟩
    rcases run_solve_spec h with ⟨_, hst, _⟩ | ⟨_, _, hst, _⟩ |
      ⟨_, _, hst, _⟩ <;> simp at hst <;>
      rw [hst] <;> simp [runReady_seed, runSeeded_seed, hfix]
  · intro a ha hcall
    have hmem : a ∈ tr.filter isSolverCall :=
      List.mem_filter.mpr ⟨ha, hcall⟩
    rw [hcalls] at hmem
    split at hmem
    · simp at hmem
      subst hmem
      rw [← hrng]
      rfl
    · split at hmem
      · simp at hmem
        subst hmem
        rw [← hrng]
        rfl
      · simp at hmem
  · intro hfix st2 st2' tr2 e1 e2 e3 e4 e5 e6 e7 e8 e9 e10 e11 e12 e13
      e14 e15 e16 e17 hrun2
    have hok2 : check_variables st2.solver_name st2.popsize =
        some (true, []) := by
      rw [e1, e3]
      exact hok
    rw [run_calls_of_ok hok2 hrun2, hcalls, e1]
    have hrng2 : (runReady env st2).rng = (runReady env st).rng := by
      rw [runReady_rng, runReady_rng, runSeeded_seed, runSeeded_seed,
        e16, e17, hfix]
      simp
    simp [mcCallAction, eaCallAction, np_seed, e1, e2, e3, e4, e5, e6,
      e7, e8, e9, e10, e11, e12, e13, e14, e15, hrng2]

theorem run_envW_stW9 : run envW stW9 = some (state9, trace9) := by
  rfl

theorem c9_witness :
    state9.seed = stW9.seed ∧
    (∃ rest, trace9 =
      Action.seedRNG (if stW9.fix_seed = true then stW9.seed
        else (envW.randint stW9.rng).1) ::
      Action.mkBenchmark (funcId stW9.function) 2 :: rest) :=
  ⟨(c9_run_seeding envW stW9 state9 trace9 (check_Hastings 10)
      run_envW_stW9).2.1 rfl,
   (c9_run_seeding envW stW9 state9 trace9 (check_Hastings 10)
      run_envW_stW9).1⟩

end StochOPy
